import Mathlib

/-!
A verification development for a multichain crypto wallet library, shallowly
embedding its JSON-RPC transport (`request`), its chain-context resolver
(`getContract`), and its wallet operations (`getBalance`, `createWallet`,
`generateWalletFromMnemonic`, `transfer`, `getTokenInfo`, `smartContractSend`).

Machine-level conventions of the embedding:
- JavaScript `undefined`/absence is `Option.none`; JavaScript truthiness of an
  optional string is "present and nonempty", of an optional number is
  "present and nonzero".
- Asynchronous chain reads (gas price, transaction count, contract view calls)
  are supplied by a `Chain` oracle record; raw JSON-RPC round trips by an
  oracle `String -> RpcResponse` keyed on the RPC method name.
- External library numeric helpers (`parseUnits`, `parseEther`) are modelled
  on integer decimal strings / integer amounts as exact scaling by a power of
  ten, and `parseInt(formatUnits(x, d))` as truncating division by `10 ^ d`.
-/

namespace Wallet

/-- A JavaScript value as it appears in a JSON-RPC `result` field; enough
structure to distinguish falsy-but-defined values (`0`, `""`, `false`,
`null`) from `undefined` (which is modelled by `Option.none` around it). -/
inductive JsVal where
  | num (n : Nat)
  | str (s : String)
  | bool (b : Bool)
  | null
  deriving DecidableEq

/-- A JSON-RPC `error` field: either an object with an optional `message`
property, or a bare string. -/
inductive JsError where
  | obj (message : Option String)
  | str (s : String)
  deriving DecidableEq

/-- JavaScript truthiness of a `JsVal`. -/
def jsTruthyVal : JsVal → Bool
  | .num n => n != 0
  | .str s => s != ""
  | .bool b => b
  | .null => false

/-- JavaScript truthiness of an optional value (`!!x`): `undefined` is falsy. -/
def jsTruthyOptVal : Option JsVal → Bool
  | some v => jsTruthyVal v
  | none => false

/-- JavaScript truthiness of a `JsError` (`!!res.data.error`): an object is
always truthy, a string is truthy iff nonempty. -/
def jsTruthyErr : Option JsError → Bool
  | some (.obj _) => true
  | some (.str s) => s != ""
  | none => false

/-- The message carried by `new Error(res.data.error.message || res.data.error)`:
the `message` property when truthy, otherwise the raw error value (an object
stringifies to "[object Object]"). -/
def jsErrMessage : JsError → String
  | .obj (some m) => if m != "" then m else "[object Object]"
  | .obj none => "[object Object]"
  | .str s => s

/-- The body of a JSON-RPC response: the `result` field (absent = `undefined`)
and the `error` field. -/
structure RpcResponse where
  result : Option JsVal
  error : Option JsError
  deriving DecidableEq

/-- Outcome of the transport promise: resolved with a value, rejected with an
error message, or never settled (neither `resolve` nor `reject` was called). -/
inductive RequestOutcome where
  | resolved (v : Option JsVal)
  | rejected (msg : String)
  | hung
  deriving DecidableEq

/-- Embedding of the transport `request` (src/unnamed/part_000): resolves with
`res.data.result` when `typeof res.data.result !== "undefined" || !!res.data.result`,
else rejects when `!!res.data.error`, else neither branch runs and the promise
never settles. -/
def request (res : RpcResponse) : RequestOutcome :=
  if res.result.isSome || jsTruthyOptVal res.result then
    .resolved res.result
  else if jsTruthyErr res.error then
    .rejected (jsErrMessage ((res.error).getD (.str "")))
  else
    .hung

/-- JavaScript truthiness of an optional string field (`!!s`): present and
nonempty. -/
def jsTruthyStr : Option String → Bool
  | some s => s != ""
  | none => false

/-- JavaScript `a || b` where `a` is an optional number: `0` and `undefined`
are falsy and fall through to the default. -/
def jsOrNat : Option Nat → Nat → Nat
  | some n, d => if n != 0 then n else d
  | none, d => d

/-- JavaScript `a || b` where `a` is an optional string: `""` and `undefined`
are falsy and fall through to the default. -/
def jsOrStr : Option String → String → String
  | some s, d => if s != "" then s else d
  | none, d => d

/-- Decimal-digit string to natural number; models the integer part of the
external `parseUnits` parser on the digit strings the embedding uses. -/
def parseDec (s : String) : Nat :=
  s.foldl (fun acc c => acc * 10 + (c.toNat - 48)) 0

/-- Models `ethers.utils.parseUnits(s, "gwei")` on integer decimal strings:
the parsed value scaled to wei by `10 ^ 9`. -/
def parseUnitsGwei (s : String) : Nat :=
  parseDec s * 10 ^ 9

/-- Hex digit character for a value below 16. -/
def hexDigit (n : Nat) : Char :=
  if n < 10 then Char.ofNat (48 + n) else Char.ofNat (87 + n)

/-- Two-digit lowercase hex rendering of a byte. -/
def byteHex (b : Nat) : String :=
  String.mk [hexDigit (b / 16 % 16), hexDigit (b % 16)]

/-- Models `ethers.utils.hexlify(ethers.utils.toUtf8Bytes(s))`: "0x" followed
by the UTF-8 bytes of `s` in lowercase hex. -/
def hexlifyUtf8 (s : String) : String :=
  "0x" ++ String.join (s.toUTF8.toList.map (fun b => byteHex b.toNat))

/-- Point-in-time chain state read through the provider and contract bindings
during one top-level operation: current gas price (wei), the signer's pending
transaction count, and the bound token contract's view-call results. -/
structure Chain where
  gasPrice : Nat
  txCount : Nat
  decimals : Nat
  estimatedGas : Nat
  balanceOf : Nat
  nativeBalance : Nat
  tokenName : String
  tokenSymbol : String
  totalSupply : Nat

/-- The record returned by `getContract` (src/unnamed/part_001): an optional
contract binding, an optional signer, the fetched gas price, the constant
`gas = 21000`, and the fetched transaction count when a signer exists. -/
structure ContractContext where
  contract : Option String
  signer : Option String
  gasPrice : Nat
  gas : Nat
  nonce : Option Nat
  deriving DecidableEq

/-- Embedding of `getContract`: branches on JavaScript truthiness of
`privateKey` and `contractAddress`; a contract binding exists iff the
contract address is truthy, a signer (and hence a fetched nonce) iff the
private key is truthy. -/
def getContract (chain : Chain) (contractAddress privateKey : Option String) :
    ContractContext :=
  if jsTruthyStr privateKey && jsTruthyStr contractAddress then
    { contract := contractAddress, signer := privateKey,
      gasPrice := chain.gasPrice, gas := 21000, nonce := some chain.txCount }
  else if jsTruthyStr privateKey && !jsTruthyStr contractAddress then
    { contract := none, signer := privateKey,
      gasPrice := chain.gasPrice, gas := 21000, nonce := some chain.txCount }
  else if jsTruthyStr contractAddress && !jsTruthyStr privateKey then
    { contract := contractAddress, signer := none,
      gasPrice := chain.gasPrice, gas := 21000, nonce := none }
  else
    { contract := none, signer := none,
      gasPrice := chain.gasPrice, gas := 21000, nonce := none }

/-- The payload of `transfer` (src/src/common/utils/types.ts TransferPayload);
`amount` is modelled as an integer amount in whole native/token units. -/
structure TransferPayload where
  recipientAddress : String
  amount : Nat
  network : String
  rpcUrl : String
  privateKey : String
  gasPrice : Option String := none
  tokenAddress : Option String := none
  nonce : Option Nat := none
  data : Option String := none
  gasLimit : Option Nat := none

/-- The transaction submitted by `transfer`: either a token-contract
`transfer(recipient, amount)` call with overrides, or a native value
transfer. The native path passes no gas limit (the transaction request
built in the source has no `gasLimit` field). -/
inductive TxAction where
  | tokenTransfer (token recipient : String)
      (amountUnits gasPriceWei nonce gasLimit : Nat)
  | nativeTransfer (recipient : String)
      (valueWei gasPriceWei nonce : Nat) (data : String)
  deriving DecidableEq

/-- Whether the submitted action is the token-contract path. -/
def isTokenTransfer : TxAction → Bool
  | .tokenTransfer _ _ _ _ _ _ => true
  | .nativeTransfer _ _ _ _ _ => false

/-- Gas price (wei) of the submitted action. -/
def txGasPrice : TxAction → Nat
  | .tokenTransfer _ _ _ g _ _ => g
  | .nativeTransfer _ _ g _ _ => g

/-- Nonce of the submitted action. -/
def txNonce : TxAction → Nat
  | .tokenTransfer _ _ _ _ n _ => n
  | .nativeTransfer _ _ _ n _ => n

/-- Gas limit of the submitted action; the native path submits none. -/
def txGasLimit : TxAction → Option Nat
  | .tokenTransfer _ _ _ _ _ gl => some gl
  | .nativeTransfer _ _ _ _ _ => none

/-- Embedding of `transfer` (src/unnamed/part_001): resolves a context with
the private key and the token address, then either calls the token contract
(`gasPrice` override via truthy string, `nonce`/`gasLimit` via `||`) or sends
a native value transfer (same gas-price/nonce rules, UTF-8-hexlified `data`
or "0x", no gas limit). `new ethers.Wallet(privateKey, provider)` rejects
malformed keys before any submission; modelled at truthiness level by the
empty-key guard. -/
def transfer (chain : Chain) (p : TransferPayload) : Except String TxAction :=
  let ctx := getContract chain p.tokenAddress (some p.privateKey)
  if p.privateKey = "" then .error "invalid private key"
  else
    match ctx.contract with
    | some token =>
        .ok (.tokenTransfer token p.recipientAddress
          (p.amount * 10 ^ chain.decimals)
          (if jsTruthyStr p.gasPrice then parseUnitsGwei (p.gasPrice.getD "")
           else ctx.gasPrice)
          (jsOrNat p.nonce (ctx.nonce.getD 0))
          (jsOrNat p.gasLimit chain.estimatedGas))
    | none =>
        .ok (.nativeTransfer p.recipientAddress
          (p.amount * 10 ^ 18)
          (if jsTruthyStr p.gasPrice then parseUnitsGwei (p.gasPrice.getD "")
           else ctx.gasPrice)
          (jsOrNat p.nonce (ctx.nonce.getD 0))
          (if jsTruthyStr p.data then hexlifyUtf8 (p.data.getD "") else "0x"))

/-- The payload of `getBalance` (BalancePayload). -/
structure BalancePayload where
  address : String
  network : String
  rpcUrl : String
  tokenAddress : Option String := none

/-- Result of `getBalance`, kept as the raw integer balance together with the
scale used for display formatting (the source formats with
`formatUnits(balance, decimals)` or `formatEther` and `parseFloat`, a display
value; the embedding keeps the exact pre-format data). -/
inductive BalanceResult where
  | token (raw : Nat) (decimals : Nat)
  | native (raw : Nat)
  deriving DecidableEq

/-- Embedding of `getBalance`: a read-only contract binding exists iff
`tokenAddress` is truthy, in which case `decimals()` and `balanceOf(address)`
are read; otherwise the provider's native balance is read. -/
def getBalance (chain : Chain) (p : BalancePayload) : BalanceResult :=
  let ctx := getContract chain p.tokenAddress none
  match ctx.contract with
  | some _ => .token chain.balanceOf chain.decimals
  | none => .native chain.nativeBalance

/-- The payload of `getTokenInfo` (IGetTokenInfoPayload). -/
structure IGetTokenInfoPayload where
  network : String
  rpcUrl : String
  address : String

/-- Token metadata (ITokenInfo): `totalSupply` already formatted by decimals
and truncated to an integer. -/
structure ITokenInfo where
  name : String
  symbol : String
  decimals : Nat
  address : String
  totalSupply : Nat
  deriving DecidableEq

/-- A `successResponse`-wrapped payload: `success: true` spread with the
payload fields. -/
structure WrappedTokenInfo where
  success : Bool
  info : ITokenInfo
  deriving DecidableEq

/-- Embedding of `getTokenInfo`: resolves a read-only contract binding from
the payload's address; when no binding is resolved (falsy address) it returns
plain `undefined` (`none`) rather than raising; otherwise it wraps the four
view reads, with `totalSupply` formatted by decimals and truncated to an
integer (`parseInt(formatUnits(totalSupply, decimals))`, i.e. division by
`10 ^ decimals`). -/
def getTokenInfo (chain : Chain) (p : IGetTokenInfoPayload) :
    Option WrappedTokenInfo :=
  let ctx := getContract chain (some p.address) none
  match ctx.contract with
  | some addr =>
      some ⟨true,
        ⟨chain.tokenName, chain.tokenSymbol, chain.decimals, addr,
          chain.totalSupply / 10 ^ chain.decimals⟩⟩
  | none => none

/-- An account as returned by the wallet operations: address, private key and
the mnemonic phrase backing it. -/
structure WalletData where
  address : String
  privateKey : String
  mnemonic : String
  deriving DecidableEq

/-- Default derivation path used by both `createWallet` and
`generateWalletFromMnemonic`. -/
def defaultDerivationPath : String := "m/44\x27/60\x27/0\x27/0/0"

/-- Modelled from the spec: the external HD-wallet derivation of the chain
client (`ethers.Wallet.fromMnemonic`), whose internals are not part of this
repository's sources. Per the spec it is "deterministic given phrase+path";
it is modelled as an arbitrary derivation function `derive` from (phrase,
path) to (address, private key), with the resulting wallet carrying the
input phrase as its mnemonic. -/
def walletFromMnemonic (derive : String → String → String × String)
    (phrase path : String) : WalletData :=
  ⟨(derive phrase path).1, (derive phrase path).2, phrase⟩

/-- Modelled from the spec: the external `ethers.Wallet.createRandom({path})`,
which draws fresh entropy, turns it into a mnemonic phrase, and derives the
account from that phrase at the given path; the fresh entropy is represented
by the phrase it produces, supplied as an explicit argument. -/
def walletCreateRandom (derive : String → String → String × String)
    (entropyPhrase path : String) : WalletData :=
  walletFromMnemonic derive entropyPhrase path

/-- Embedding of `createWallet`: applies the caller's derivation path or the
default, draws a random wallet, and returns its address, private key and
mnemonic phrase. -/
def createWallet (derive : String → String → String × String)
    (entropyPhrase : String) (derivationPath : Option String) : WalletData :=
  walletCreateRandom derive entropyPhrase
    (jsOrStr derivationPath defaultDerivationPath)

/-- Embedding of `generateWalletFromMnemonic`: applies the caller's
derivation path or the default and derives the account from the given
mnemonic phrase. -/
def generateWalletFromMnemonic (derive : String → String → String × String)
    (mnemonic : String) (derivationPath : Option String) : WalletData :=
  walletFromMnemonic derive mnemonic
    (jsOrStr derivationPath defaultDerivationPath)

/-- The payload of `smartContractSend` (ISmartContractCallPayload); ABI and
params are kept opaque (the encoding of call data is external). -/
structure SmartContractCallPayload where
  rpcUrl : String
  contractAddress : String
  method : String
  params : List String := []
  value : Option Nat := none
  gasPrice : Option String := none
  gasLimit : Option Nat := none
  nonce : Option Nat := none
  privateKey : Option String := none
  chainId : Option Nat := none

/-- JavaScript truthiness of an optional number (`args.gasLimit ? ... : ...`). -/
def jsTruthyOptNat : Option Nat → Bool
  | some n => n != 0
  | none => false

/-- The raw transaction structure built by `smartContractSend` before
signing: nonce and gas limit come straight from RPC results or the caller,
gas price is `parseUnits(gasPrice || "100", "gwei")` in wei, and the
structure is scoped to the resolved chain id. -/
structure RawTx where
  nonce : Option JsVal
  toAddress : String
  gasLimit : Option JsVal
  gasPriceWei : Nat
  chainId : Nat
  deriving DecidableEq

/-- Modelled from the spec: the external signing-domain constructor
(`Common.custom({chainId})` of the chain client, not part of this
repository's sources). Per the spec, "chainId is required for the
raw-signing path because the signature domain is chain-specific; invariant:
signing without a resolved chainId must fail, not silently default". -/
def commonCustom : Option Nat → Except String Nat
  | some cid => .ok cid
  | none => .error "missing chainId for custom signing domain"

/-- Final outcome of the `smartContractSend` pipeline. -/
inductive SendOutcome where
  | success (txHash : Option JsVal)
  | failure (msg : String)
  | hung
  deriving DecidableEq

/-- Observable behaviour of one `smartContractSend` run: the outcome, the
raw transaction that was built and signed (if the pipeline reached the build
step), and the RPC methods actually requested, in order. -/
structure SendResult where
  outcome : SendOutcome
  builtTx : Option RawTx
  calls : List String
  deriving DecidableEq

/-- Embedding of `smartContractSend` (src/unnamed/part_001): encodes call
data (external, assumed to succeed), constructs the signer wallet from the
private key (the external constructor rejects absent or malformed keys,
modelled at truthiness level), then sequentially awaits `eth_estimateGas`
and `eth_getTransactionCount`, builds the raw transaction scoped to the
chain id, signs and serializes it (external), and broadcasts via
`eth_sendRawTransaction`. A rejection at any await re-raises and aborts the
pipeline; a transport hang suspends it forever. The RPC oracle maps each
method name to its response body. -/
def smartContractSend (rpc : String → RpcResponse)
    (args : SmartContractCallPayload) : SendResult :=
  if !jsTruthyStr args.privateKey then
    ⟨.failure "invalid private key", none, []⟩
  else
    match request (rpc "eth_estimateGas") with
    | .rejected e => ⟨.failure e, none, ["eth_estimateGas"]⟩
    | .hung => ⟨.hung, none, ["eth_estimateGas"]⟩
    | .resolved estimateGas =>
      match request (rpc "eth_getTransactionCount") with
      | .rejected e =>
          ⟨.failure e, none, ["eth_estimateGas", "eth_getTransactionCount"]⟩
      | .hung =>
          ⟨.hung, none, ["eth_estimateGas", "eth_getTransactionCount"]⟩
      | .resolved nonce =>
        match commonCustom args.chainId with
        | .error e =>
            ⟨.failure e, none, ["eth_estimateGas", "eth_getTransactionCount"]⟩
        | .ok cid =>
          let tx : RawTx :=
            { nonce := nonce,
              toAddress := args.contractAddress,
              gasLimit :=
                if jsTruthyOptNat args.gasLimit then
                  some (.num (args.gasLimit.getD 0))
                else estimateGas,
              gasPriceWei := parseUnitsGwei (jsOrStr args.gasPrice "100"),
              chainId := cid }
          match request (rpc "eth_sendRawTransaction") with
          | .resolved h =>
              ⟨.success h, some tx,
                ["eth_estimateGas", "eth_getTransactionCount",
                  "eth_sendRawTransaction"]⟩
          | .rejected e =>
              ⟨.failure e, some tx,
                ["eth_estimateGas", "eth_getTransactionCount",
                  "eth_sendRawTransaction"]⟩
          | .hung =>
              ⟨.hung, some tx,
                ["eth_estimateGas", "eth_getTransactionCount",
                  "eth_sendRawTransaction"]⟩

/-- A concrete chain-state fixture: gas price 5 wei, pending transaction
count 7, token with 2 decimals, gas estimate 60000, total supply 123456. -/
def chainEx : Chain :=
  ⟨5, 7, 2, 60000, 1000, 2000, "Token", "TKN", 123456⟩

/-- Transfer payload with a truthy token address and all three overrides
truthy. -/
def pC1 : TransferPayload :=
  { recipientAddress := "0xR", amount := 3, network := "ethereum",
    rpcUrl := "http://localhost", privateKey := "k", gasPrice := some "5",
    tokenAddress := some "0xT", nonce := some 9, gasLimit := some 800 }

/-- Transfer payload supplying a zero nonce override on the token path. -/
def pC1x : TransferPayload :=
  { recipientAddress := "0xR", amount := 1, network := "ethereum",
    rpcUrl := "http://localhost", privateKey := "k", gasPrice := some "5",
    tokenAddress := some "0xT", nonce := some 0, gasLimit := some 800 }

/-- Transfer payload whose `tokenAddress` is present but the empty string. -/
def pC2x : TransferPayload :=
  { recipientAddress := "0xR", amount := 1, network := "ethereum",
    rpcUrl := "http://localhost", privateKey := "k",
    tokenAddress := some "" }

/-- Transfer payload on the token path, used by the C2 witness. -/
def pC2a : TransferPayload :=
  { recipientAddress := "0xR", amount := 1, network := "ethereum",
    rpcUrl := "http://localhost", privateKey := "k",
    tokenAddress := some "0xT", data := some "x" }

/-- Transfer payload on the native path, used by the C2 witness. -/
def pC2b : TransferPayload :=
  { recipientAddress := "0xR", amount := 1, network := "ethereum",
    rpcUrl := "http://localhost", privateKey := "k" }

/-- RPC oracle whose `eth_estimateGas` response is an error envelope with
message "execution reverted". -/
def rpcC3 : String → RpcResponse := fun m =>
  if m = "eth_estimateGas" then ⟨none, some (.obj (some "execution reverted"))⟩
  else ⟨some (.num 1), none⟩

/-- Contract-call payload with a usable key and chain id. -/
def argsC3 : SmartContractCallPayload :=
  { rpcUrl := "http://localhost", contractAddress := "0xC",
    method := "transfer", privateKey := some "k", chainId := some 1 }

/-- RPC oracle answering gas estimate 77, transaction count 4, and a hash
for the broadcast. -/
def rpcC4 : String → RpcResponse := fun m =>
  if m = "eth_estimateGas" then ⟨some (.num 77), none⟩
  else if m = "eth_getTransactionCount" then ⟨some (.num 4), none⟩
  else ⟨some (.str "0xhash"), none⟩

/-- Contract-call payload supplying a zero gas-limit override. -/
def argsC4x : SmartContractCallPayload :=
  { rpcUrl := "http://localhost", contractAddress := "0xC",
    method := "transfer", gasLimit := some 0, privateKey := some "k",
    chainId := some 64 }

/-- Contract-call payload with truthy gas-limit and gas-price overrides. -/
def argsC4 : SmartContractCallPayload :=
  { rpcUrl := "http://localhost", contractAddress := "0xC",
    method := "transfer", gasPrice := some "9", gasLimit := some 800,
    privateKey := some "k", chainId := some 64 }

/-- Contract-call payload with no chain id. -/
def argsC5 : SmartContractCallPayload :=
  { rpcUrl := "http://localhost", contractAddress := "0xC",
    method := "transfer", privateKey := some "k" }

/-- Token-info payload with an unresolvable (empty) address. -/
def ipC8a : IGetTokenInfoPayload :=
  { network := "ethereum", rpcUrl := "http://localhost", address := "" }

/-- Token-info payload with a resolvable address. -/
def ipC8b : IGetTokenInfoPayload :=
  { network := "ethereum", rpcUrl := "http://localhost", address := "0xA" }

end Wallet

namespace Wallet

/-- Context resolution when both the private key and the contract address
are truthy: signer-bound contract binding with a fetched nonce. -/
theorem getContract_contract_truthy (chain : Chain) (ca pk : Option String)
    (hpk : jsTruthyStr pk = true) (hca : jsTruthyStr ca = true) :
    getContract chain ca pk =
      { contract := ca, signer := pk, gasPrice := chain.gasPrice,
        gas := 21000, nonce := some chain.txCount } := by
  simp [getContract, hpk, hca]

/-- Context resolution when only the private key is truthy: bare signer,
no contract binding. -/
theorem getContract_signer_only (chain : Chain) (ca pk : Option String)
    (hpk : jsTruthyStr pk = true) (hca : jsTruthyStr ca = false) :
    getContract chain ca pk =
      { contract := none, signer := pk, gasPrice := chain.gasPrice,
        gas := 21000, nonce := some chain.txCount } := by
  simp [getContract, hpk, hca]

/-- Context resolution when only the contract address is truthy: read-only
contract binding, no signer, no fetched nonce. -/
theorem getContract_contract_only (chain : Chain) (ca pk : Option String)
    (hpk : jsTruthyStr pk = false) (hca : jsTruthyStr ca = true) :
    getContract chain ca pk =
      { contract := ca, signer := none, gasPrice := chain.gasPrice,
        gas := 21000, nonce := none } := by
  simp [getContract, hpk, hca]

/-- Context resolution when neither input is truthy: bare connection. -/
theorem getContract_bare (chain : Chain) (ca pk : Option String)
    (hpk : jsTruthyStr pk = false) (hca : jsTruthyStr ca = false) :
    getContract chain ca pk =
      { contract := none, signer := none, gasPrice := chain.gasPrice,
        gas := 21000, nonce := none } := by
  simp [getContract, hpk, hca]

/-- The native-transfer path of `transfer`, taken whenever the token address
is falsy (absent or empty) and the private key is well-formed. -/
theorem transfer_native (chain : Chain) (p : TransferPayload)
    (hpk : p.privateKey ≠ "") (hta : jsTruthyStr p.tokenAddress = false) :
    transfer chain p = .ok (.nativeTransfer p.recipientAddress
      (p.amount * 10 ^ 18)
      (if jsTruthyStr p.gasPrice then parseUnitsGwei (p.gasPrice.getD "")
       else chain.gasPrice)
      (jsOrNat p.nonce chain.txCount)
      (if jsTruthyStr p.data then hexlifyUtf8 (p.data.getD "") else "0x")) := by
  have hpk' : jsTruthyStr (some p.privateKey) = true := by
    simp [jsTruthyStr, hpk]
  simp only [transfer,
    getContract_signer_only chain p.tokenAddress (some p.privateKey) hpk' hta]
  simp [hpk]

/-- The token-transfer path of `transfer`, taken whenever the token address
is a nonempty string and the private key is well-formed. -/
theorem transfer_token (chain : Chain) (p : TransferPayload) (tok : String)
    (hpk : p.privateKey ≠ "") (htok : p.tokenAddress = some tok)
    (htok0 : tok ≠ "") :
    transfer chain p = .ok (.tokenTransfer tok p.recipientAddress
      (p.amount * 10 ^ chain.decimals)
      (if jsTruthyStr p.gasPrice then parseUnitsGwei (p.gasPrice.getD "")
       else chain.gasPrice)
      (jsOrNat p.nonce chain.txCount)
      (jsOrNat p.gasLimit chain.estimatedGas)) := by
  have hpk' : jsTruthyStr (some p.privateKey) = true := by
    simp [jsTruthyStr, hpk]
  have htat : jsTruthyStr (some tok) = true := by
    simp [jsTruthyStr, htok0]
  simp only [transfer, htok,
    getContract_contract_truthy chain (some tok) (some p.privateKey)
      hpk' htat]
  simp [hpk]

/-- A truthy optional string is a nonempty `some`. -/
theorem jsTruthyStr_eq_true (o : Option String)
    (h : jsTruthyStr o = true) : ∃ s, o = some s ∧ s ≠ "" := by
  cases ho : o with
  | none => rw [ho] at h; cases h
  | some s =>
      refine ⟨s, rfl, ?_⟩
      rw [ho] at h
      simpa [jsTruthyStr] using h

/-- Claim C6: for every RPC response body whose result field is `0` (or any
other falsy but defined value), the transport `request` function succeeds and
returns that value, and does not fail. Proved in full generality: any defined
`result` value, falsy or not, resolves the promise with that value, whatever
the `error` field holds. -/
theorem c6_falsy_result_success (v : JsVal) (e : Option JsError) :
    request ⟨some v, e⟩ = .resolved (some v) := by
  simp [request]

/-- Claim C7 counterexample: on the concrete response body with neither a
`result` nor an `error` field, `request` leaves the promise unsettled (`hung`),
which is not success with an `undefined` result, refuting the claim that the
transport "returns success with an undefined result". -/
theorem c7_counterexample :
    request ⟨none, none⟩ = .hung ∧
      request ⟨none, none⟩ ≠ .resolved none := by
  constructor
  · rfl
  · decide

/-- Claim C7 amended: for every RPC response body with neither a `result`
field nor an `error` field, `request` neither resolves nor rejects: the
returned promise never settles (it hangs; in particular it does not fail,
but it also never returns). -/
theorem c7_amended_hangs (r : RpcResponse)
    (hres : r.result = none) (herr : r.error = none) :
    request r = .hung := by
  simp [request, hres, herr, jsTruthyOptVal, jsTruthyErr]

/-- Claim C7 amended, witness: the amended theorem applied at the concrete
empty response body. -/
theorem c7_witness :
    (⟨none, none⟩ : RpcResponse).result = none ∧
      (⟨none, none⟩ : RpcResponse).error = none ∧
      request ⟨none, none⟩ = .hung :=
  ⟨rfl, rfl, c7_amended_hangs ⟨none, none⟩ rfl rfl⟩

/-- Claim C1 counterexample: on the token path with a caller-supplied nonce
of `0` (and fetched pending nonce `7`), the transaction submitted by
`transfer` carries nonce `7`, not the caller-supplied `0`: the source uses
`args.nonce || nonce`, so a zero override does not replace the fetched
transaction count, refuting the claim for "all caller-supplied values
including zero". -/
theorem c1_counterexample :
    pC1x.nonce = some 0 ∧
      (transfer chainEx pC1x).map txNonce = .ok 7 ∧ (7 : Nat) ≠ 0 := by
  refine ⟨rfl, rfl, by decide⟩

/-- Claim C1 amended: when the caller-supplied values are JavaScript-truthy
(nonempty gasPrice string, nonzero nonce), the submitted transaction uses the
caller-supplied gasPrice (converted from gwei) and nonce in place of the
fetched gas price and fetched transaction count; a truthy (nonzero)
caller-supplied gasLimit replaces the estimated gas on the token path, while
the native-transfer path includes no gas limit in the submitted transaction
at all. (Falsy overrides - zero nonce, zero gasLimit, empty gasPrice - fall
back to the fetched or estimated values.) -/
theorem c1_amended_overrides (chain : Chain) (p : TransferPayload)
    (gp : String) (n : Nat)
    (hpk : p.privateKey ≠ "")
    (hgp : p.gasPrice = some gp) (hgp0 : gp ≠ "")
    (hn : p.nonce = some n) (hn0 : n ≠ 0) :
    (transfer chain p).map txGasPrice = .ok (parseUnitsGwei gp) ∧
      (transfer chain p).map txNonce = .ok n ∧
      (∀ gl, p.gasLimit = some gl → gl ≠ 0 →
        jsTruthyStr p.tokenAddress = true →
        (transfer chain p).map txGasLimit = .ok (some gl)) ∧
      (jsTruthyStr p.tokenAddress = false →
        (transfer chain p).map txGasLimit = .ok none) := by
  cases hta : jsTruthyStr p.tokenAddress
  · rw [transfer_native chain p hpk hta]
    refine ⟨?_, ?_, ?_, ?_⟩
    · simp [txGasPrice, hgp, jsTruthyStr, hgp0, Except.map]
    · simp [txNonce, hn, jsOrNat, hn0, Except.map]
    · intro gl hgl hgl0 htok
      cases htok
    · intro _
      simp [txGasLimit, Except.map]
  · obtain ⟨tok, htok, htok0⟩ := jsTruthyStr_eq_true p.tokenAddress hta
    rw [transfer_token chain p tok hpk htok htok0]
    refine ⟨?_, ?_, ?_, ?_⟩
    · simp [txGasPrice, hgp, jsTruthyStr, hgp0, Except.map]
    · simp [txNonce, hn, jsOrNat, hn0, Except.map]
    · intro gl hgl hgl0 _
      simp [txGasLimit, hgl, jsOrNat, hgl0, Except.map]
    · intro hta'
      cases hta'

/-- Claim C1 amended, witness: the amended theorem applied at a concrete
chain state and a payload carrying truthy overrides gasPrice "5", nonce 9,
gasLimit 800 on the token path. -/
theorem c1_witness :
    (transfer chainEx pC1).map txGasPrice = .ok (parseUnitsGwei "5") ∧
      (transfer chainEx pC1).map txNonce = .ok 9 ∧
      (transfer chainEx pC1).map txGasLimit = .ok (some 800) := by
  have h := c1_amended_overrides chainEx pC1 "5" 9 (by decide) rfl
    (by decide) rfl (by decide)
  exact ⟨h.1, h.2.1, h.2.2.1 800 rfl (by decide) (by decide)⟩

/-- Claim C2 counterexample: a payload whose `tokenAddress` is present but
equal to the empty string takes the native-transfer path, refuting "if
tokenAddress is present it performs only the token-contract transfer call":
the source tests truthiness (`privateKey && contractAddress`), not
presence. -/
theorem c2_counterexample :
    pC2x.tokenAddress.isSome = true ∧
      (transfer chainEx pC2x).map isTokenTransfer = .ok false := by
  exact ⟨rfl, rfl⟩

/-- Claim C2 amended: for every payload with a well-formed (nonempty) private
key, if `tokenAddress` is present and nonempty the submitted action is only
the token-contract transfer and is unchanged by any value of the
native-transfer-only `data` field; if `tokenAddress` is absent or empty the
submitted action is only a native value transfer. The two paths are
mutually exclusive by construction (one submitted action). -/
theorem c2_amended_path_selection (chain : Chain) (p : TransferPayload)
    (hpk : p.privateKey ≠ "") :
    (jsTruthyStr p.tokenAddress = true →
      (transfer chain p).map isTokenTransfer = .ok true ∧
      ∀ d, transfer chain { p with data := d } = transfer chain p) ∧
    (jsTruthyStr p.tokenAddress = false →
      (transfer chain p).map isTokenTransfer = .ok false) := by
  constructor
  · intro hta
    obtain ⟨tok, htok, htok0⟩ := jsTruthyStr_eq_true p.tokenAddress hta
    constructor
    · rw [transfer_token chain p tok hpk htok htok0]
      simp [isTokenTransfer, Except.map]
    · intro d
      rw [transfer_token chain p tok hpk htok htok0,
        transfer_token chain { p with data := d } tok hpk htok htok0]
  · intro hta
    rw [transfer_native chain p hpk hta]
    simp [isTokenTransfer, Except.map]

/-- Claim C2 amended, witness: the amended theorem applied on the token path
(truthy token address, `data` ignored) and on the native path (no token
address). -/
theorem c2_witness :
    (transfer chainEx pC2a).map isTokenTransfer = .ok true ∧
      transfer chainEx { pC2a with data := some "hello" } =
        transfer chainEx pC2a ∧
      (transfer chainEx pC2b).map isTokenTransfer = .ok false := by
  have h1 := c2_amended_path_selection chainEx pC2a (by decide)
  have h2 := c2_amended_path_selection chainEx pC2b (by decide)
  exact ⟨(h1.1 rfl).1, (h1.1 rfl).2 (some "hello"), h2.2 rfl⟩

/-- Claim C3: for every contract-call request with a usable private key, if
the `eth_estimateGas` RPC response is an error envelope (undefined `result`,
truthy `error`), `smartContractSend` aborts before the nonce fetch
(`eth_getTransactionCount` is never requested: the call trace is exactly
`["eth_estimateGas"]`) and before signing (no transaction is built), and
raises an error carrying that envelope's message. -/
theorem c3_estimate_error_aborts (rpc : String → RpcResponse)
    (args : SmartContractCallPayload) (e : JsError)
    (hpk : jsTruthyStr args.privateKey = true)
    (hres : (rpc "eth_estimateGas").result = none)
    (herr : (rpc "eth_estimateGas").error = some e)
    (htruthy : jsTruthyErr (some e) = true) :
    smartContractSend rpc args =
      ⟨.failure (jsErrMessage e), none, ["eth_estimateGas"]⟩ := by
  have hreq : request (rpc "eth_estimateGas") = .rejected (jsErrMessage e) := by
    simp [request, hres, herr, htruthy, jsTruthyOptVal]
  simp [smartContractSend, hpk, hreq]

/-- Claim C3 witness: the theorem applied at a concrete oracle whose
`eth_estimateGas` response is the error envelope with message
"execution reverted". -/
theorem c3_witness :
    smartContractSend rpcC3 argsC3 =
      ⟨.failure "execution reverted", none, ["eth_estimateGas"]⟩ :=
  c3_estimate_error_aborts rpcC3 argsC3 (.obj (some "execution reverted"))
    rfl rfl rfl rfl

/-- Claim C4 counterexample: with a caller-supplied gasLimit of `0` and an
`eth_estimateGas` result of `77`, the transaction built by
`smartContractSend` carries gasLimit `77`, not the caller-supplied `0`: the
source uses `args.gasLimit ? args.gasLimit : estimateGas`, so a zero
override does not replace the estimate, refuting "gasLimit equal to the
caller's gasLimit override when supplied". -/
theorem c4_counterexample :
    argsC4x.gasLimit = some 0 ∧
      (smartContractSend rpcC4 argsC4x).builtTx.map RawTx.gasLimit =
        some (some (.num 77)) ∧
      some (JsVal.num 77) ≠ some (JsVal.num 0) := by
  refine ⟨rfl, rfl, by decide⟩

/-- Claim C4 amended: for every contract-call request with a usable private
key that reaches the build step (both RPC fetches resolve and chainId is
present), the built transaction has gasLimit equal to the caller's override
when supplied and truthy (nonzero) and the `eth_estimateGas` result
otherwise, gasPrice equal to the caller's override when supplied and truthy
(nonempty) and the default "100" otherwise, converted from gwei to base
units, nonce equal to the `eth_getTransactionCount` result, `to` equal to
`contractAddress`, scoped to the request's chainId. -/
theorem c4_amended_build (rpc : String → RpcResponse)
    (args : SmartContractCallPayload) (ge nv : Option JsVal) (cid : Nat)
    (hpk : jsTruthyStr args.privateKey = true)
    (hest : request (rpc "eth_estimateGas") = .resolved ge)
    (hcnt : request (rpc "eth_getTransactionCount") = .resolved nv)
    (hcid : args.chainId = some cid) :
    (smartContractSend rpc args).builtTx =
      some { nonce := nv,
             toAddress := args.contractAddress,
             gasLimit :=
               if jsTruthyOptNat args.gasLimit then
                 some (.num (args.gasLimit.getD 0))
               else ge,
             gasPriceWei := parseUnitsGwei (jsOrStr args.gasPrice "100"),
             chainId := cid } := by
  cases hb : request (rpc "eth_sendRawTransaction") <;>
    simp [smartContractSend, hpk, hest, hcnt, hcid, commonCustom, hb]

/-- Claim C4 amended, witness: the amended theorem applied at a concrete
oracle (estimate 77, count 4) and a payload with truthy overrides gasLimit
800 and gasPrice "9" on chain 64. -/
theorem c4_witness :
    (smartContractSend rpcC4 argsC4).builtTx =
      some { nonce := some (.num 4), toAddress := "0xC",
             gasLimit := some (.num 800),
             gasPriceWei := parseUnitsGwei "9", chainId := 64 } :=
  c4_amended_build rpcC4 argsC4 (some (.num 77)) (some (.num 4)) 64
    rfl rfl rfl rfl

/-- Claim C5: for every contract-call request whose chainId is absent,
`smartContractSend` fails before broadcasting: it never requests
`eth_sendRawTransaction`, never reaches the build/signing step, and never
succeeds with a defaulted chain id. (The signing-domain constructor is
modelled from the spec: chainId is required and signing without one must
fail.) -/
theorem c5_missing_chain_id (rpc : String → RpcResponse)
    (args : SmartContractCallPayload) (hcid : args.chainId = none) :
    (smartContractSend rpc args).builtTx = none ∧
      "eth_sendRawTransaction" ∉ (smartContractSend rpc args).calls ∧
      ∀ h, (smartContractSend rpc args).outcome ≠ .success h := by
  cases hpk : jsTruthyStr args.privateKey
  · simp [smartContractSend, hpk]
  · cases h1 : request (rpc "eth_estimateGas") <;>
      simp [smartContractSend, hpk, h1, hcid, commonCustom]
    cases h2 : request (rpc "eth_getTransactionCount") <;>
      simp [hcid, commonCustom, h2]

/-- Claim C5 witness: the theorem applied at a concrete oracle and a payload
without a chainId. -/
theorem c5_witness :
    (smartContractSend rpcC4 argsC5).builtTx = none ∧
      "eth_sendRawTransaction" ∉ (smartContractSend rpcC4 argsC5).calls ∧
      ∀ h, (smartContractSend rpcC4 argsC5).outcome ≠ .success h :=
  c5_missing_chain_id rpcC4 argsC5 rfl

/-- Claim C8: for every token-info payload for which no contract binding can
be resolved (falsy address), `getTokenInfo` returns `undefined` (`none`)
rather than raising; when a binding is resolved it returns the wrapped
token info whose totalSupply is formatted by decimals and truncated to an
integer (division by `10 ^ decimals`). -/
theorem c8_token_info_soft_undefined (chain : Chain)
    (p : IGetTokenInfoPayload) :
    (p.address = "" → getTokenInfo chain p = none) ∧
      (p.address ≠ "" →
        getTokenInfo chain p =
          some ⟨true, ⟨chain.tokenName, chain.tokenSymbol, chain.decimals,
            p.address, chain.totalSupply / 10 ^ chain.decimals⟩⟩) := by
  constructor
  · intro h
    have hca : jsTruthyStr (some p.address) = false := by
      simp [jsTruthyStr, h]
    simp only [getTokenInfo,
      getContract_bare chain (some p.address) none rfl hca]
  · intro h
    have hca : jsTruthyStr (some p.address) = true := by
      simp [jsTruthyStr, h]
    simp only [getTokenInfo,
      getContract_contract_only chain (some p.address) none rfl hca]

/-- Claim C8 witness: the theorem applied at a concrete chain state, once
with an unresolvable (empty) address and once with a resolvable one. -/
theorem c8_witness :
    getTokenInfo chainEx ipC8a = none ∧
      getTokenInfo chainEx ipC8b =
        some ⟨true, ⟨"Token", "TKN", 2, "0xA", 1234⟩⟩ :=
  ⟨(c8_token_info_soft_undefined chainEx ipC8a).1 rfl,
    (c8_token_info_soft_undefined chainEx ipC8b).2 (by decide)⟩

/-- Claim C9: for every account produced by `createWallet` (over any
deterministic external HD derivation, any entropy draw, and any derivation
path option, including the omitted path, which both operations default to
the same constant), feeding the returned mnemonic phrase to
`generateWalletFromMnemonic` with the same derivation path reproduces the
same address and the same private key (indeed the same whole account). -/
theorem c9_mnemonic_roundtrip (derive : String → String → String × String)
    (entropyPhrase : String) (derivationPath : Option String) :
    generateWalletFromMnemonic derive
        (createWallet derive entropyPhrase derivationPath).mnemonic
        derivationPath =
      createWallet derive entropyPhrase derivationPath :=
  rfl

/-- Claim C10: for every pair of requests differing only in the required
`network` field, every embedded operation whose payload carries `network`
(`getBalance`, `transfer`, `getTokenInfo`) produces an identical result:
no operation reads `network` (two-run noninterference). The raw-path
`smartContractSend` payload has no `network` field at all. -/
theorem c10_network_noninterference (chain : Chain) (bp : BalancePayload)
    (tp : TransferPayload) (ip : IGetTokenInfoPayload) (n : String) :
    getBalance chain { bp with network := n } = getBalance chain bp ∧
      transfer chain { tp with network := n } = transfer chain tp ∧
      getTokenInfo chain { ip with network := n } = getTokenInfo chain ip :=
  ⟨rfl, rfl, rfl⟩

end Wallet
